import Mathlib

/-!
Shallow embedding of the SportRent rental marketplace core
(`sportrent/rentals/forms.py`, `sportrent/rentals/views.py`,
`sportrent/chat/consumers.py`, with record layouts taken from
`sportrent/rentals/models.py`, `sportrent/users/models.py`,
`sportrent/inventory/models.py`).

Modelling conventions:
* Dates and datetimes are day indices (`Int`); `(end - start).days` is plain
  integer subtraction.
* Python `Decimal` money amounts are rationals (`ℚ`).  Every division the
  code performs is by the literal 100 on quantities of at most 13 significant
  digits, which `Decimal` (28-digit context) computes exactly, so `ℚ` has the
  same semantics on all reachable values.
* Django messages (`messages.error` and friends) are a level/text pair.
* A Python attribute access on a name the model class does not define
  raises `AttributeError`; those code paths return `PyError.attributeError`.
-/

namespace SportRent

/-- Roles from `users/models.py` (`User.ROLE_CHOICES`). -/
inductive Role
  | client
  | owner
  | manager
  | administrator
deriving DecidableEq

/-- Rental statuses from `rentals/models.py` (`Rental.STATUS_CHOICES`). -/
inductive RentalStatus
  | inquiry
  | pending
  | confirmed
  | active
  | completed
  | cancelled
  | rejected
deriving DecidableEq

/-- Payment statuses.  `Rental.PAYMENT_STATUS_CHOICES` in `rentals/models.py`
lists only pending/paid/refunded/failed; the string `delayed` is additionally
assigned by `views.rental_extend` (Django does not enforce choices on save),
so the runtime value space includes it. -/
inductive PayStatus
  | pending
  | paid
  | refunded
  | failed
  | delayed
deriving DecidableEq

/-- Inventory statuses from `inventory/models.py` (`STATUS_CHOICES`). -/
inductive InvStatus
  | pending
  | awaiting_contract
  | available
  | rented
  | maintenance
  | rejected
deriving DecidableEq

/-- Message levels of the Django messages framework as used by the views. -/
inductive MsgLevel
  | success
  | info
  | warning
  | error
deriving DecidableEq

/-- One message surfaced to the acting user. -/
structure Msg where
  level : MsgLevel
  text : String
deriving DecidableEq

/-- Bank account (`users/models.py`), only the fields the views read. -/
structure BankAccount where
  account_id : Nat
  bank_name : String
deriving DecidableEq

/-- Inventory record (`inventory/models.py`), fields used by the core views. -/
structure Inventory where
  inventory_id : Nat
  owner_id : Nat
  manager_id : Option Nat
  price_per_day : ℚ
  status : InvStatus
  total_rentals : Int
  min_rental_days : Int
  max_rental_days : Int
  deposit_amount : ℚ
  bank_account : Option BankAccount
deriving DecidableEq

/-- The fields of an existing rental row that the availability query in
`RentalCreateForm.clean` reads. -/
structure ExistingRental where
  start_date : Int
  end_date : Int
  status : RentalStatus
deriving DecidableEq

/-- The `status__in` filter list of the overlap query in
`RentalCreateForm.clean` (forms.py line 89). -/
def blockingStatuses : List RentalStatus :=
  [.pending, .confirmed, .active]

/-- The row filter of the overlap query (forms.py lines 87-93):
status in the blocking set, `start_date__lt=end_date`, `end_date__gt=start_date`. -/
def overlapsNew (start_date end_date : Int) (r : ExistingRental) : Bool :=
  blockingStatuses.contains r.status
    && decide (r.start_date < end_date)
    && decide (r.end_date > start_date)

/-- Rendering of one date for the conflict message; stands for
`strftime('%d.%m.%Y')` applied to the day index (injective on the model). -/
def fmtDate (d : Int) : String := toString d

/-- One occupied range as formatted in forms.py line 99. -/
def fmtRange (r : ExistingRental) : String :=
  "с " ++ fmtDate r.start_date ++ " по " ++ fmtDate r.end_date

/-- The conflict error text of forms.py lines 101-105: one range in
parentheses, several ranges comma-joined. -/
def conflictMessage (occupiedStrings : List String) : String :=
  match occupiedStrings with
  | [one] => "Инвентарь уже забронирован на эти даты (" ++ one ++ ")"
  | occupied => "Инвентарь уже забронирован на эти даты ("
      ++ String.intercalate ", " occupied ++ ")"

/-- `RentalCreateForm.clean_start_date` plus `RentalCreateForm.clean`
(forms.py lines 51-107), for a form bound to `inventory := inv` as
`rental_create` always does.  `invRentals` are the stored rentals of that
inventory; `today` is `timezone.now().date()`.  Returns the first validation
error raised, `.ok` when the form validates. -/
def rentalFormValidate (today : Int) (inv : Inventory)
    (invRentals : List ExistingRental) (start_date end_date : Int) :
    Except String Unit :=
  if start_date < today then
    .error "Дата начала не может быть в прошлом"
  else if end_date ≤ start_date then
    .error "Дата окончания должна быть после даты начала"
  else
    let rental_days := end_date - start_date
    if rental_days < inv.min_rental_days then
      .error ("Минимальный срок аренды для этого инвентаря: "
        ++ toString inv.min_rental_days ++ " дней")
    else if rental_days > inv.max_rental_days then
      .error ("Максимальный срок аренды для этого инвентаря: "
        ++ toString inv.max_rental_days ++ " дней")
    else
      let overlapping := invRentals.filter (overlapsNew start_date end_date)
      if overlapping.isEmpty then
        .ok ()
      else
        .error (conflictMessage (overlapping.map fmtRange))

/-- True exactly on the `.error` constructor. -/
def isErr {ε α : Type} : Except ε α → Bool
  | .error _ => true
  | .ok _ => false

/-- Client profile (`users/models.py`), fields used by the rental views. -/
structure ClientP where
  client_id : Nat
  user_id : Nat
  total_rentals : Int
  loyalty_points : Int
deriving DecidableEq

/-- Manager profile (`users/models.py`). -/
structure ManagerP where
  manager_id : Nat
  user_id : Nat
deriving DecidableEq

/-- Owner profile (`users/models.py`), fields used by the payout. -/
structure OwnerP where
  owner_id : Nat
  total_earnings : ℚ
deriving DecidableEq

/-- Authenticated user as the views see it: role plus the optional
role-specific profiles probed with `hasattr`. -/
structure User where
  user_id : Nat
  role : Role
  client_profile : Option ClientP
  manager_profile : Option ManagerP
deriving DecidableEq

/-- Rental row (`rentals/models.py`).  The model declares NO
`additional_payment` field even though `views.rental_extend` reads one,
and its `PAYMENT_STATUS_CHOICES` has no `delayed` entry even though
`views.rental_extend` assigns that string. -/
structure Rental where
  rental_id : Nat
  inventory_id : Nat
  client_id : Nat
  manager_id : Option Nat
  start_date : Int
  end_date : Int
  actual_return_date : Option Int
  total_price : ℚ
  deposit_paid : ℚ
  status : RentalStatus
  payment_status : PayStatus
  rejection_reason : String
deriving DecidableEq

/-- Owner revenue-split agreement (`users/models.py`). -/
structure OwnerAgreement where
  agreement_id : Nat
  owner_id : Nat
  owner_percentage : Int
  is_accepted : Bool
  created_date : Int
  accepted_date : Option Int
deriving DecidableEq

/-- Python runtime errors the modelled code can raise. -/
inductive PyError
  | attributeError (attr : String)
deriving DecidableEq

/-- Rendering of a money amount in a user message; stands for the
`:.2f` format. -/
def fmtMoney (q : ℚ) : String := toString q

/-- Result of a view that mutates a rental and its inventory. -/
structure RentalInvResult where
  rental : Rental
  inventory : Inventory
  msg : Msg
deriving DecidableEq

/-- Result of a view that mutates only the rental. -/
structure RentalResult where
  rental : Rental
  msg : Msg
deriving DecidableEq

/-- `views.rental_confirm` (views.py lines 233-274), POST branch.  Guards in
source order: role, manager profile, rental status, payment status; then the
atomic block sets the rental confirmed, assigns the acting manager and rents
out the inventory. -/
def rental_confirm (user : User) (rental : Rental) (inv : Inventory) :
    RentalInvResult :=
  if user.role ≠ .manager then
    ⟨rental, inv, ⟨.error, "Недостаточно прав"⟩⟩
  else
    match user.manager_profile with
    | none => ⟨rental, inv, ⟨.error, "Профиль менеджера не найден"⟩⟩
    | some m =>
      if rental.status ≠ .pending then
        ⟨rental, inv, ⟨.warning, "Эта аренда уже обработана"⟩⟩
      else if rental.payment_status ≠ .paid then
        ⟨rental, inv,
         ⟨.warning, "Подтверждение возможно только после оплаты заявки клиентом."⟩⟩
      else
        ⟨{rental with status := .confirmed, manager_id := some m.manager_id},
         {inv with status := .rented},
         ⟨.success, "Аренда успешно подтверждена"⟩⟩

/-- `views.rental_reject` (views.py lines 330-362), POST branch. -/
def rental_reject (user : User) (rental : Rental) (reason : String) :
    RentalResult :=
  if user.role ≠ .manager then
    ⟨rental, ⟨.error, "Недостаточно прав"⟩⟩
  else if rental.status ≠ .pending then
    ⟨rental, ⟨.warning, "Эта аренда уже обработана"⟩⟩
  else
    ⟨{rental with status := .rejected, rejection_reason := reason},
     ⟨.info, "Аренда отклонена"⟩⟩

/-- Accumulator step of Django's `order_by('-created_date').first()` on the
accepted-agreements queryset: keep the earliest-seen row with the strictly
greatest `created_date`. -/
def laterCreated (best : Option OwnerAgreement) (a : OwnerAgreement) :
    Option OwnerAgreement :=
  match best with
  | none => some a
  | some b => if a.created_date > b.created_date then some a else some b

/-- The agreement lookup of views.py lines 409-412:
`OwnerAgreement.objects.filter(owner=inventory.owner, is_accepted=True)
.order_by('-created_date').first()`. -/
def latestAcceptedAgreement (oid : Nat) (ags : List OwnerAgreement) :
    Option OwnerAgreement :=
  (ags.filter (fun a => a.owner_id == oid && a.is_accepted)).foldl laterCreated none

/-- Result of `views.rental_complete`. -/
structure CompleteResult where
  rental : Rental
  inventory : Inventory
  client : ClientP
  owner : OwnerP
  msg : Msg
deriving DecidableEq

/-- `views.rental_complete` (views.py lines 365-434), POST branch with
`pay_owner = True` as in source.  `client` is `rental.client`, `owner` is
`inventory.owner`, `agreements` the stored `OwnerAgreement` rows, `now` is
`timezone.now()`.  The whole body runs in one `transaction.atomic()` block
and no statement in it can raise, so the result is all updates at once. -/
def rental_complete (user : User) (rental : Rental) (inv : Inventory)
    (client : ClientP) (owner : OwnerP) (agreements : List OwnerAgreement)
    (now : Int) : CompleteResult :=
  if user.role ≠ .manager then
    ⟨rental, inv, client, owner, ⟨.error, "Недостаточно прав"⟩⟩
  else if ¬ (rental.status = .confirmed ∨ rental.status = .active) then
    ⟨rental, inv, client, owner, ⟨.warning, "Эта аренда не может быть завершена"⟩⟩
  else
    let rental1 := {rental with status := .completed, actual_return_date := some now}
    let inv1 := {inv with status := .available, total_rentals := inv.total_rentals + 1}
    let client1 := {client with total_rentals := client.total_rentals + 1,
                                loyalty_points := client.loyalty_points + 10}
    match inv.bank_account with
    | some acct =>
      match latestAcceptedAgreement inv.owner_id agreements with
      | some agreement =>
        let owner_amount := rental.total_price * (agreement.owner_percentage : ℚ) / 100
        ⟨rental1, inv1, client1,
         {owner with total_earnings := owner.total_earnings + owner_amount},
         ⟨.success, "Аренда завершена. Владельцу выплачено " ++ fmtMoney owner_amount
            ++ " ₽ на счет " ++ acct.bank_name ++ "."⟩⟩
      | none =>
        ⟨rental1, inv1, client1, owner,
         ⟨.warning, "Аренда завершена, но соглашение владельца не найдено"⟩⟩
    | none =>
      ⟨rental1, inv1, client1, owner,
       ⟨.warning, "Аренда завершена, но банковский счет не указан в инвентаре"⟩⟩

/-- The Python attribute read `rental.additional_payment` in
`views.rental_extend`: `Rental` in rentals/models.py declares no field of
that name and no code path assigns one beforehand, so the lookup raises
`AttributeError`. -/
def rentalAdditionalPayment (_r : Rental) : Except PyError ℚ :=
  .error (.attributeError "additional_payment")

/-- `views.rental_extend` (views.py lines 437-479), POST branch.  The
`try`/`transaction.atomic` body updates `end_date`, computes the surcharge,
then reads the missing `additional_payment` attribute; the raised
`AttributeError` is caught by the `except`, the transaction is rolled back
and an error message is shown. -/
def rental_extend (user : User) (rental : Rental) (inv : Inventory)
    (additional_days : Int) : RentalResult :=
  if user.role ≠ .manager then
    ⟨rental, ⟨.error, "Недостаточно прав"⟩⟩
  else if rental.status = .completed ∨ rental.status = .cancelled ∨
      rental.status = .rejected then
    ⟨rental, ⟨.warning, "Нельзя продлевать завершенную или отмененную аренду"⟩⟩
  else if additional_days ≤ 0 then
    ⟨rental, ⟨.error, "Количество дней должно быть больше 0"⟩⟩
  else
    let attempt : Except PyError (Rental × ℚ) := do
      let r1 := {rental with end_date := rental.end_date + additional_days}
      let additional_price := inv.price_per_day * (additional_days : ℚ)
      let current ← rentalAdditionalPayment r1
      -- dead code from here on: the read above always raises; the source
      -- would store current + additional_price into the nonexistent field
      -- and mark the payment delayed
      let _ := current + additional_price
      pure ({r1 with payment_status := .delayed}, additional_price)
    match attempt with
    | .ok (r2, price) =>
      ⟨r2, ⟨.success, "Аренда продлена на " ++ toString additional_days
        ++ " дней. Доплата: " ++ fmtMoney price ++ " ₽"⟩⟩
    | .error _ => ⟨rental, ⟨.error, "Ошибка при продлении"⟩⟩

/-- Status guard and mutation of `views.rental_cancel` (views.py lines
498-515): only pending/confirmed cancel; a rented inventory reverts to
available. -/
def rentalCancelStatusStep (rental : Rental) (inv : Inventory) :
    RentalInvResult :=
  if ¬ (rental.status = .pending ∨ rental.status = .confirmed) then
    ⟨rental, inv, ⟨.warning, "Эту аренду нельзя отменить"⟩⟩
  else
    ⟨{rental with status := .cancelled},
     if inv.status = .rented then {inv with status := .available} else inv,
     ⟨.success, "Аренда отменена"⟩⟩

/-- `views.rental_cancel` (views.py lines 482-521), POST branch: a client
must own the rental; otherwise the role must be manager or administrator. -/
def rental_cancel (user : User) (rental : Rental) (inv : Inventory) :
    RentalInvResult :=
  if user.role = .client then
    match user.client_profile with
    | none => ⟨rental, inv, ⟨.error, "У вас нет прав на отмену этой аренды"⟩⟩
    | some cp =>
      if rental.client_id ≠ cp.client_id then
        ⟨rental, inv, ⟨.error, "У вас нет прав на отмену этой аренды"⟩⟩
      else
        rentalCancelStatusStep rental inv
  else if user.role ≠ .manager ∧ user.role ≠ .administrator then
    ⟨rental, inv, ⟨.error, "Недостаточно прав"⟩⟩
  else
    rentalCancelStatusStep rental inv

/-- Sample inventory used to instantiate universally quantified theorems. -/
def invSample : Inventory :=
  ⟨1, 1, none, 5, .available, 0, 2, 10, 0, none⟩

/-- Sample bank account. -/
def bankSample : BankAccount := ⟨1, "Банк"⟩

/-- Sample inventory with a payout bank account bound, currently rented. -/
def invWithBank : Inventory :=
  ⟨1, 1, none, 5, .rented, 0, 2, 10, 0, some bankSample⟩

/-- Sample manager profile. -/
def mgrSample : ManagerP := ⟨7, 70⟩

/-- A second manager profile. -/
def mgrSampleB : ManagerP := ⟨8, 80⟩

/-- Sample manager user. -/
def userManagerSample : User := ⟨70, .manager, none, some mgrSample⟩

/-- A second manager user. -/
def userManagerSampleB : User := ⟨80, .manager, none, some mgrSampleB⟩

/-- Sample client profile. -/
def clientSample : ClientP := ⟨2, 20, 3, 40⟩

/-- Sample client user owning `rentalSample`. -/
def clientUserSample : User := ⟨20, .client, some clientSample, none⟩

/-- Sample owner profile. -/
def ownerSample : OwnerP := ⟨1, 0⟩

/-- Sample accepted 70/30 agreement of owner 1. -/
def agreementSample : OwnerAgreement := ⟨1, 1, 70, true, 100, some 101⟩

/-- Sample pending unpaid rental, assigned to manager 9. -/
def rentalSample : Rental :=
  ⟨1, 1, 2, some 9, 10, 15, none, 1000, 0, .pending, .pending, ""⟩

/-- Sample confirmed paid rental, assigned to manager 9. -/
def rentalConfirmedSample : Rental :=
  ⟨1, 1, 2, some 9, 10, 15, none, 1000, 0, .confirmed, .paid, ""⟩

/-- A JSON value as returned by `json.loads`. -/
inductive Json
  | null
  | bool (b : Bool)
  | num (n : Int)
  | str (s : String)
  | arr (elems : List Json)
  | obj (fields : List (String × Json))

/-- Python truthiness of a `json.loads` result. -/
def jsonTruthy : Json → Bool
  | .null => false
  | .bool b => b
  | .num n => n != 0
  | .str s => s != ""
  | .arr es => !es.isEmpty
  | .obj fs => !fs.isEmpty

/-- Python `dict.get` with default `None`: the value of the last binding of
the key (`json.loads` keeps the last duplicate), or null for a missing key. -/
def dictGet (fields : List (String × Json)) (k : String) : Json :=
  match fields.reverse.find? (fun p => p.1 == k) with
  | some p => p.2
  | none => .null

/-- One inbound websocket frame as `ChatConsumer.receive` sees it after the
transport layer and `json.loads`: absent or empty text data, text that fails
to decode, or a decoded JSON value. -/
inductive Frame
  | empty
  | unparsable
  | parsed (data : Json)

/-- Per-connection consumer state (`ChatConsumer`): the attributes `connect`
assigns.  `room_group_name` is only assigned when the connection was
accepted; `other_user_id` is the counterparty resolved by `_check_access`. -/
structure ChatSession where
  user_id : Nat
  role : Role
  rental_id : Nat
  other_user_id : Option Nat
  room_group_name : Option String
  channel_name : String

/-- Events `receive` sends to channel-layer groups (payloads abbreviated to
the fields the properties mention). -/
inductive GroupEvent
  | chatMessage (sender_id : Nat) (text : String)
  | notifyMessage (title body url : String)
deriving DecidableEq

/-- Observable side effects of one `receive` call, in program order: the
persisted `ChatMessage` row and the `group_send` calls. -/
inductive ChatEffect
  | createChatMessage (rental_id sender_id receiver_id : Nat)
      (text : String) (message_type : String)
  | groupSend (group : String) (event : GroupEvent)
deriving DecidableEq

/-- `ChatConsumer._user_group_name`. -/
def userGroupName (user_id : Nat) : String := "user_" ++ toString user_id

/-- Python `str.strip()`: drop leading and trailing whitespace. -/
def pystrip (s : String) : String :=
  ⟨((s.data.dropWhile Char.isWhitespace).reverse.dropWhile
      Char.isWhitespace).reverse⟩

/-- Python slicing `s[:n]`: the first n characters. -/
def pyslice (s : String) (n : Nat) : String := ⟨s.data.take n⟩

/-- `ChatConsumer.receive` (consumers.py lines 38-78).  `sender_name` and
`inventory_name` are the database values `_serialize_message` reads
(`message.sender.get_full_name()`, `message.rental.inventory.name`).
Returns the effects performed before returning or raising, paired with the
raised Python error, if any: a non-dict `json.loads` result has no `.get`,
and a truthy non-string `message` value has no `.strip`. -/
def receive (s : ChatSession) (sender_name inventory_name : String)
    (frame : Frame) : List ChatEffect × Option PyError :=
  if s.role = .administrator then ([], none)
  else
    match frame with
    | .empty => ([], none)
    | .unparsable => ([], none)
    | .parsed data =>
      match data with
      | .obj fields =>
        let orDefault : Json :=
          if jsonTruthy (dictGet fields "message") then dictGet fields "message"
          else .str ""
        match orDefault with
        | .str text0 =>
          let message_text := pystrip text0
          if message_text = "" then ([], none)
          else
            match s.other_user_id with
            | none => ([], none)
            | some other =>
              match s.room_group_name with
              | none =>
                ([.createChatMessage s.rental_id s.user_id other
                    message_text "text"],
                 some (.attributeError "room_group_name"))
              | some room =>
                ([.createChatMessage s.rental_id s.user_id other
                    message_text "text",
                  .groupSend room (.chatMessage s.user_id message_text),
                  .groupSend (userGroupName other)
                    (.notifyMessage ("Новое сообщение от " ++ sender_name)
                      (inventory_name ++ ": " ++ pyslice message_text 120)
                      ("/chat/" ++ toString s.rental_id ++ "/"))],
                 none)
        | _ => ([], some (.attributeError "strip"))
      | _ => ([], some (.attributeError "get"))

/-- Channel-layer group membership registry: the (group, channel) pairs. -/
abbrev Layer := List (String × String)

/-- `channel_layer.group_add`: set semantics, adding twice is adding once. -/
def group_add (layer : Layer) (group channel : String) : Layer :=
  if (group, channel) ∈ layer then layer else (group, channel) :: layer

/-- `channel_layer.group_discard`: discarding an absent member is a no-op. -/
def group_discard (layer : Layer) (group channel : String) : Layer :=
  layer.filter (fun p => p != (group, channel))

/-- Rental fields `ChatConsumer._check_access` reads. -/
structure ChatRental where
  rental_id : Nat
  client_id : Nat
  client_user_id : Nat
  manager : Option ManagerP
deriving DecidableEq

/-- `ChatConsumer._check_access` (consumers.py lines 92-116). -/
def chat_check_access (user : User) (rental : Option ChatRental) :
    Bool × Option Nat :=
  match rental with
  | none => (false, none)
  | some r =>
    if user.role = .client then
      match user.client_profile with
      | some cp =>
        if r.client_id = cp.client_id then
          (true, r.manager.map (fun m => m.user_id))
        else (false, none)
      | none => (false, none)
    else if user.role = .manager then
      match user.manager_profile with
      | some mp =>
        match r.manager with
        | some m =>
          if m.manager_id = mp.manager_id then (true, some r.client_user_id)
          else (false, none)
        | none => (false, none)
      | none => (false, none)
    else if user.role = .administrator then (true, none)
    else (false, none)

/-- `ChatConsumer.connect` (consumers.py lines 13-32): close on missing
authentication or denied access; otherwise record the counterparty, join
the room group named after the rental, and accept. -/
def chat_connect (user : User) (authenticated : Bool) (rental_id : Nat)
    (rental : Option ChatRental) (channel : String) (layer : Layer) :
    Option ChatSession × Layer :=
  if !authenticated then (none, layer)
  else
    match chat_check_access user rental with
    | (false, _) => (none, layer)
    | (true, other) =>
      let room := "chat_" ++ toString rental_id
      (some ⟨user.user_id, user.role, rental_id, other, some room, channel⟩,
       group_add layer room channel)

/-- `ChatConsumer.disconnect` (consumers.py lines 34-36): leave the room
only when `room_group_name` was ever assigned. -/
def chat_disconnect (s : ChatSession) (layer : Layer) : Layer :=
  match s.room_group_name with
  | some room => group_discard layer room s.channel_name
  | none => layer

/-- The claim's reading of the trimmed message text of a frame (empty when
the payload carries no usable string). -/
def frameMessageText : Frame → String
  | .parsed (.obj fields) =>
    (match (if jsonTruthy (dictGet fields "message") then dictGet fields "message"
            else Json.str "") with
     | .str t => pystrip t
     | _ => "")
  | _ => ""

/-- C7's drop condition exactly as the claim words it: administrator sender,
unparsable payload, empty trimmed text, or no counterparty. -/
def claimC7DropCond (s : ChatSession) (f : Frame) : Bool :=
  s.role == .administrator ||
  (match f with | .empty => true | .unparsable => true | .parsed _ => false) ||
  frameMessageText f == "" ||
  s.other_user_id == none

/-- C7 as stated: a frame is silently dropped (no effect, no error) iff the
drop condition holds; otherwise exactly one text `ChatMessage` is persisted
and broadcast to the rental's room, plus one notification to the
counterparty's channel with url `/chat/rental_id/`. -/
def claimC7Statement (s : ChatSession) (sender_name inventory_name : String)
    (f : Frame) : Prop :=
  (claimC7DropCond s f = true →
    receive s sender_name inventory_name f = ([], none)) ∧
  (claimC7DropCond s f = false →
    ∃ other title body text,
      s.other_user_id = some other ∧
      receive s sender_name inventory_name f =
        ([.createChatMessage s.rental_id s.user_id other text "text",
          .groupSend ("chat_" ++ toString s.rental_id)
            (.chatMessage s.user_id text),
          .groupSend (userGroupName other)
            (.notifyMessage title body
              ("/chat/" ++ toString s.rental_id ++ "/"))], none))

/-- Payloads on which the `(data.get('message') or '').strip()` line does
not raise: a JSON object whose `message` value is falsy or a string. -/
def wellFormedPayload : Json → Bool
  | .obj fields =>
      !(jsonTruthy (dictGet fields "message")) ||
        (match dictGet fields "message" with | .str _ => true | _ => false)
  | _ => false

/-- Sample chat session: client 20 in rental 5 with counterparty 70. -/
def chatSessionSample : ChatSession :=
  ⟨20, .client, 5, some 70, some "chat_5", "ch1"⟩

/-- Sample channel-layer state with two members in room chat_5. -/
def layerSample : Layer := [("chat_5", "ch1"), ("chat_5", "ch2")]

/-- The singleton special case of `conflictMessage` coincides with the
general comma-joined form. -/
lemma conflictMessage_eq_intercalate (l : List String) :
    conflictMessage l
      = "Инвентарь уже забронирован на эти даты ("
          ++ String.intercalate ", " l ++ ")" := by
  match l with
  | [] => rfl
  | [a] => rfl
  | a :: b :: bs => rfl

/-- The overlap filter in propositional form. -/
lemma overlapsNew_iff (s e : Int) (r : ExistingRental) :
    overlapsNew s e r = true ↔
      r.status ∈ blockingStatuses ∧ r.start_date < e ∧ s < r.end_date := by
  simp [overlapsNew, List.contains_iff_exists_mem_beq, Bool.and_eq_true,
    decide_eq_true_eq, and_assoc]

/-- C1: rental-creation validation rejects a request exactly when the start
date is in the past, the duration in days is below `min_rental_days` or above
`max_rental_days`, or some pending/confirmed/active rental of the inventory
overlaps under the half-open test `existing.start < new.end ∧ existing.end >
new.start`; a booking ending exactly on the new start date is never a
conflict; and the conflict error names every blocked range, comma-joined. -/
theorem C1_rental_create_validation (today : Int) (inv : Inventory)
    (rs : List ExistingRental) (s e : Int) (hmin : 1 ≤ inv.min_rental_days) :
    (isErr (rentalFormValidate today inv rs s e) = true ↔
      s < today ∨ e - s < inv.min_rental_days ∨ e - s > inv.max_rental_days ∨
        ∃ r ∈ rs, r.status ∈ blockingStatuses ∧ r.start_date < e ∧ s < r.end_date) ∧
    (∀ r ∈ rs, r.end_date = s → overlapsNew s e r = false) ∧
    (¬ s < today → inv.min_rental_days ≤ e - s → e - s ≤ inv.max_rental_days →
      rs.filter (overlapsNew s e) ≠ [] →
      rentalFormValidate today inv rs s e =
        .error ("Инвентарь уже забронирован на эти даты ("
          ++ String.intercalate ", "
              ((rs.filter (overlapsNew s e)).map fmtRange) ++ ")")) := by
  refine ⟨?_, ?_, ?_⟩
  · simp only [rentalFormValidate]
    split_ifs with h1 h2 h3 h4 h5
    · simpa [isErr] using Or.inl h1
    · simpa [isErr] using Or.inr (Or.inl (by omega))
    · simpa [isErr] using Or.inr (Or.inl h3)
    · simpa [isErr] using Or.inr (Or.inr (Or.inl h4))
    · refine iff_of_false (by simp [isErr]) ?_
      rintro (h | h | h | ⟨r, hr, hst, hlt, hgt⟩)
      · exact h1 h
      · exact h3 h
      · exact h4 h
      · exact absurd ((overlapsNew_iff s e r).mpr ⟨hst, hlt, hgt⟩)
          (List.filter_eq_nil_iff.mp (List.isEmpty_iff.mp h5) r hr)
    · refine iff_of_true (by simp [isErr]) ?_
      have hne : rs.filter (overlapsNew s e) ≠ [] := by
        intro hc
        exact h5 (by simp [hc])
      obtain ⟨r, hrf⟩ := List.exists_mem_of_ne_nil _ hne
      have hm := List.mem_filter.mp hrf
      exact Or.inr (Or.inr (Or.inr ⟨r, hm.1, (overlapsNew_iff s e r).mp hm.2⟩))
  · intro r hr he
    simp [overlapsNew, he]
  · intro h1 h2 h3 h4
    simp only [rentalFormValidate]
    split_ifs with g1 g2 g3 g4
    · omega
    · omega
    · omega
    · exact absurd (List.isEmpty_iff.mp g4) h4
    · rw [conflictMessage_eq_intercalate]

/-- Witness for C1 at a concrete input: a start date in the past is
rejected. -/
theorem C1_rental_create_validation_witness :
    1 ≤ invSample.min_rental_days ∧
    isErr (rentalFormValidate 5 invSample [] 3 9) = true :=
  ⟨by decide,
   (C1_rental_create_validation 5 invSample [] 3 9 (by decide)).1.mpr
     (Or.inl (by decide))⟩

/-- C2: confirming a pending rental whose payment status is not paid is
rejected with a warning and leaves the rental (status and manager) and the
inventory unchanged; confirm on a non-pending rental is a warning no-op, not
a crash; confirming a pending paid rental as a manager sets the rental
confirmed, assigns the acting manager, and flips the inventory to rented. -/
theorem C2_confirm_payment_gate (u : User) (r : Rental) (i : Inventory)
    (m : ManagerP) (hrole : u.role = .manager)
    (hprof : u.manager_profile = some m) :
    (r.status = .pending → r.payment_status ≠ .paid →
      rental_confirm u r i =
        ⟨r, i, ⟨.warning,
          "Подтверждение возможно только после оплаты заявки клиентом."⟩⟩) ∧
    (r.status ≠ .pending →
      rental_confirm u r i = ⟨r, i, ⟨.warning, "Эта аренда уже обработана"⟩⟩) ∧
    (r.status = .pending → r.payment_status = .paid →
      rental_confirm u r i =
        ⟨{r with status := .confirmed, manager_id := some m.manager_id},
         {i with status := .rented}, ⟨.success, "Аренда успешно подтверждена"⟩⟩) := by
  refine ⟨?_, ?_, ?_⟩
  · intro h1 h2
    simp [rental_confirm, hrole, hprof, h1, h2]
  · intro h1
    simp [rental_confirm, hrole, hprof, h1]
  · intro h1 h2
    simp [rental_confirm, hrole, hprof, h1, h2]

/-- Witness for C2: the sample pending unpaid rental is not confirmed. -/
theorem C2_confirm_payment_gate_witness :
    rental_confirm userManagerSample rentalSample invSample =
      ⟨rentalSample, invSample,
       ⟨.warning, "Подтверждение возможно только после оплаты заявки клиентом."⟩⟩ :=
  (C2_confirm_payment_gate userManagerSample rentalSample invSample mgrSample
    rfl rfl).1 rfl (by decide)

/-- C3: a manager completing a confirmed or active rental produces, in one
atomic transaction, all of: rental completed with return timestamp, inventory
available with its rental counter incremented, client counter and exactly 10
loyalty points added, and the payout applied to the owner; from any other
status the action is a warning no-op that changes nothing. -/
theorem C3_complete_side_effects (u : User) (r : Rental) (i : Inventory)
    (c : ClientP) (o : OwnerP) (ags : List OwnerAgreement) (now : Int)
    (hrole : u.role = .manager) :
    (r.status = .confirmed ∨ r.status = .active →
      (rental_complete u r i c o ags now).rental.status = .completed ∧
      (rental_complete u r i c o ags now).rental.actual_return_date = some now ∧
      (rental_complete u r i c o ags now).inventory.status = .available ∧
      (rental_complete u r i c o ags now).inventory.total_rentals
        = i.total_rentals + 1 ∧
      (rental_complete u r i c o ags now).client.total_rentals
        = c.total_rentals + 1 ∧
      (rental_complete u r i c o ags now).client.loyalty_points
        = c.loyalty_points + 10 ∧
      (rental_complete u r i c o ags now).owner.total_earnings =
        (match i.bank_account, latestAcceptedAgreement i.owner_id ags with
         | some _, some a =>
            o.total_earnings + r.total_price * (a.owner_percentage : ℚ) / 100
         | _, _ => o.total_earnings)) ∧
    (¬ (r.status = .confirmed ∨ r.status = .active) →
      rental_complete u r i c o ags now =
        ⟨r, i, c, o, ⟨.warning, "Эта аренда не может быть завершена"⟩⟩) := by
  constructor
  · intro h
    unfold rental_complete
    rw [if_neg (by simp [hrole]), if_neg (not_not_intro h)]
    cases hb : i.bank_account with
    | none => simp
    | some acct =>
      cases ha : latestAcceptedAgreement i.owner_id ags with
      | none => simp
      | some a => simp
  · intro h
    unfold rental_complete
    rw [if_neg (by simp [hrole]), if_pos h]

/-- Witness for C3 at a concrete completed rental. -/
theorem C3_complete_side_effects_witness :
    (rental_complete userManagerSample rentalConfirmedSample invWithBank
      clientSample ownerSample [agreementSample] 20).rental.status
      = .completed :=
  ((C3_complete_side_effects userManagerSample rentalConfirmedSample invWithBank
      clientSample ownerSample [agreementSample] 20 rfl).1 (Or.inl rfl)).1

/-- C4: with a payout bank account bound and an accepted agreement found, the
payout amount is exactly `total_price * owner_percentage / 100` in exact
rational (Decimal) arithmetic and the owner's cumulative earnings grow by
exactly that amount. -/
theorem C4_payout_exact (u : User) (r : Rental) (i : Inventory) (c : ClientP)
    (o : OwnerP) (ags : List OwnerAgreement) (now : Int) (a : OwnerAgreement)
    (acct : BankAccount) (hrole : u.role = .manager)
    (hst : r.status = .confirmed ∨ r.status = .active)
    (hacct : i.bank_account = some acct)
    (hag : latestAcceptedAgreement i.owner_id ags = some a) :
    (rental_complete u r i c o ags now).owner.total_earnings =
      o.total_earnings + r.total_price * (a.owner_percentage : ℚ) / 100 := by
  unfold rental_complete
  rw [if_neg (by simp [hrole]), if_neg (not_not_intro hst), hacct, hag]

/-- Witness for C4: owner_percentage 70 on a 1000-rouble rental credits
exactly 700, with no rounding drift. -/
theorem C4_payout_exact_witness :
    (rental_complete userManagerSample rentalConfirmedSample invWithBank
      clientSample ownerSample [agreementSample] 20).owner.total_earnings
      = ownerSample.total_earnings + 700 := by
  rw [C4_payout_exact userManagerSample rentalConfirmedSample invWithBank
    clientSample ownerSample [agreementSample] 20 agreementSample bankSample
    rfl (Or.inl rfl) rfl rfl]
  norm_num [agreementSample, rentalConfirmedSample]

/-- Folding `laterCreated` returns the first element carrying the maximal
`created_date`, or the accumulator. -/
lemma foldl_laterCreated_spec (l : List OwnerAgreement) :
    ∀ (acc : Option OwnerAgreement) (a : OwnerAgreement),
      l.foldl laterCreated acc = some a →
      (acc = some a ∨ a ∈ l) ∧
      (∀ b, acc = some b → b.created_date ≤ a.created_date) ∧
      (∀ b ∈ l, b.created_date ≤ a.created_date) := by
  induction l with
  | nil =>
    intro acc a h
    simp only [List.foldl_nil] at h
    refine ⟨Or.inl h, ?_, by simp⟩
    intro b hb
    rw [h] at hb
    cases hb
    exact le_refl _
  | cons x xs ih =>
    intro acc a h
    rw [List.foldl_cons] at h
    obtain ⟨hmem, hacc, hxs⟩ := ih (laterCreated acc x) a h
    refine ⟨?_, ?_, ?_⟩
    · rcases hmem with hm | hm
      · cases acc with
        | none =>
          simp only [laterCreated, Option.some.injEq] at hm
          exact Or.inr (by simp [hm])
        | some b =>
          by_cases hgt : x.created_date > b.created_date
          · simp only [laterCreated, if_pos hgt, Option.some.injEq] at hm
            exact Or.inr (by simp [hm])
          · simp only [laterCreated, if_neg hgt, Option.some.injEq] at hm
            exact Or.inl (by rw [hm])
      · exact Or.inr (List.mem_cons_of_mem _ hm)
    · intro b hb
      rw [hb] at hacc
      by_cases hgt : x.created_date > b.created_date
      · have hx := hacc x (by simp [laterCreated, if_pos hgt])
        omega
      · exact hacc b (by simp [laterCreated, if_neg hgt])
    · intro b hb
      rcases List.mem_cons.mp hb with rfl | hbxs
      · cases acc with
        | none => exact hacc b (by simp [laterCreated])
        | some bb =>
          by_cases hgt : b.created_date > bb.created_date
          · exact hacc b (by simp [laterCreated, if_pos hgt])
          · have := hacc bb (by simp [laterCreated, if_neg hgt])
            omega
      · exact hxs b hbxs

/-- If the agreement lookup succeeds, the returned row belongs to the owner,
is accepted, and no other accepted row of that owner was created later. -/
lemma latestAcceptedAgreement_spec (oid : Nat) (ags : List OwnerAgreement)
    (a : OwnerAgreement) (h : latestAcceptedAgreement oid ags = some a) :
    a ∈ ags ∧ a.owner_id = oid ∧ a.is_accepted = true ∧
      ∀ b ∈ ags, b.owner_id = oid → b.is_accepted = true →
        b.created_date ≤ a.created_date := by
  unfold latestAcceptedAgreement at h
  obtain ⟨hmem, -, hall⟩ := foldl_laterCreated_spec _ none a h
  rcases hmem with hm | hm
  · exact absurd hm (by simp)
  · have hmf := List.mem_filter.mp hm
    have hcond := hmf.2
    simp only [Bool.and_eq_true, beq_iff_eq] at hcond
    refine ⟨hmf.1, hcond.1, hcond.2, ?_⟩
    intro b hb hoid haccp
    exact hall b (List.mem_filter.mpr ⟨hb, by simp [hoid, haccp]⟩)

/-- Folding `laterCreated` never returns `none` on a nonempty list. -/
lemma foldl_laterCreated_eq_none (l : List OwnerAgreement) :
    ∀ acc : Option OwnerAgreement,
      l.foldl laterCreated acc = none → acc = none ∧ l = [] := by
  induction l with
  | nil => intro acc h; exact ⟨h, rfl⟩
  | cons x xs ih =>
    intro acc h
    rw [List.foldl_cons] at h
    obtain ⟨h1, -⟩ := ih _ h
    exfalso
    cases acc with
    | none => simp [laterCreated] at h1
    | some b =>
      by_cases hgt : x.created_date > b.created_date
      · simp [laterCreated, if_pos hgt] at h1
      · simp [laterCreated, if_neg hgt] at h1

/-- The agreement lookup fails exactly when the owner has no accepted
agreement stored. -/
lemma latestAcceptedAgreement_eq_none (oid : Nat) (ags : List OwnerAgreement) :
    latestAcceptedAgreement oid ags = none ↔
      ∀ b ∈ ags, ¬ (b.owner_id = oid ∧ b.is_accepted = true) := by
  unfold latestAcceptedAgreement
  constructor
  · intro h b hb hcond
    have hnil := (foldl_laterCreated_eq_none _ none h).2
    have hbmem : b ∈ ags.filter (fun a => a.owner_id == oid && a.is_accepted) :=
      List.mem_filter.mpr ⟨hb, by simp [hcond.1, hcond.2]⟩
    rw [hnil] at hbmem
    exact absurd hbmem (by simp)
  · intro h
    have hnil : ags.filter (fun a => a.owner_id == oid && a.is_accepted) = [] := by
      rw [List.filter_eq_nil_iff]
      intro b hb hc
      simp only [Bool.and_eq_true, beq_iff_eq] at hc
      exact h b hb hc
    rw [hnil]
    rfl

/-- C5: payout always uses the most recent accepted agreement of the
inventory's owner (maximal `created_date` among accepted rows); with no
accepted agreement, or no payout bank account bound, the payout is skipped
with a warning, the owner's earnings are untouched, and the rental still
completes. -/
theorem C5_payout_agreement_selection (u : User) (r : Rental) (i : Inventory)
    (c : ClientP) (o : OwnerP) (ags : List OwnerAgreement) (now : Int)
    (hrole : u.role = .manager)
    (hst : r.status = .confirmed ∨ r.status = .active) :
    (∀ acct a, i.bank_account = some acct →
      latestAcceptedAgreement i.owner_id ags = some a →
      a ∈ ags ∧ a.owner_id = i.owner_id ∧ a.is_accepted = true ∧
        (∀ b ∈ ags, b.owner_id = i.owner_id → b.is_accepted = true →
          b.created_date ≤ a.created_date) ∧
        (rental_complete u r i c o ags now).owner.total_earnings =
          o.total_earnings + r.total_price * (a.owner_percentage : ℚ) / 100) ∧
    ((∀ b ∈ ags, ¬ (b.owner_id = i.owner_id ∧ b.is_accepted = true)) →
      (rental_complete u r i c o ags now).owner = o ∧
      (rental_complete u r i c o ags now).msg.level = .warning ∧
      (rental_complete u r i c o ags now).rental.status = .completed) ∧
    (i.bank_account = none →
      (rental_complete u r i c o ags now).owner = o ∧
      (rental_complete u r i c o ags now).msg.level = .warning ∧
      (rental_complete u r i c o ags now).rental.status = .completed) := by
  refine ⟨?_, ?_, ?_⟩
  · intro acct a hacct hag
    obtain ⟨h1, h2, h3, h4⟩ := latestAcceptedAgreement_spec _ _ _ hag
    refine ⟨h1, h2, h3, h4, ?_⟩
    unfold rental_complete
    rw [if_neg (by simp [hrole]), if_neg (not_not_intro hst), hacct, hag]
  · intro hnone
    have hag : latestAcceptedAgreement i.owner_id ags = none :=
      (latestAcceptedAgreement_eq_none _ _).mpr hnone
    unfold rental_complete
    rw [if_neg (by simp [hrole]), if_neg (not_not_intro hst)]
    cases hb : i.bank_account with
    | none => exact ⟨rfl, rfl, rfl⟩
    | some acct =>
      rw [hag]
      exact ⟨rfl, rfl, rfl⟩
  · intro hb
    unfold rental_complete
    rw [if_neg (by simp [hrole]), if_neg (not_not_intro hst), hb]
    exact ⟨rfl, rfl, rfl⟩

/-- Witness for C5: completing with no stored agreements leaves the owner
untouched, warns, and still completes the rental. -/
theorem C5_payout_agreement_selection_witness :
    (rental_complete userManagerSample rentalConfirmedSample invWithBank
      clientSample ownerSample [] 20).owner = ownerSample ∧
    (rental_complete userManagerSample rentalConfirmedSample invWithBank
      clientSample ownerSample [] 20).msg.level = .warning ∧
    (rental_complete userManagerSample rentalConfirmedSample invWithBank
      clientSample ownerSample [] 20).rental.status = .completed :=
  (C5_payout_agreement_selection userManagerSample rentalConfirmedSample
    invWithBank clientSample ownerSample [] 20 rfl (Or.inl rfl)).2.1
    (by simp)

/-- C6: evaluation of extend at the failing input.  A manager extending a
confirmed rental by 1 day does not get the claimed updates: the body reads
the `additional_payment` attribute that `Rental` does not define, the raised
`AttributeError` is caught, the transaction rolls back and an error message
is shown, leaving the rental unchanged.  A request with 0 days is rejected
with the dedicated error, as the claim states. -/
theorem C6_extend_attribute_error :
    rental_extend userManagerSample rentalConfirmedSample invWithBank 1 =
      ⟨rentalConfirmedSample, ⟨.error, "Ошибка при продлении"⟩⟩ ∧
    rental_extend userManagerSample rentalConfirmedSample invWithBank 0 =
      ⟨rentalConfirmedSample, ⟨.error, "Количество дней должно быть больше 0"⟩⟩ ∧
    rentalAdditionalPayment
        {rentalConfirmedSample with end_date := rentalConfirmedSample.end_date + 1}
      = .error (.attributeError "additional_payment") :=
  ⟨rfl, rfl, rfl⟩

/-- C10: no transition compares the acting manager to `rental.manager`.
Two distinct managers, neither of them the assigned manager 9, get identical
successful results from reject; a non-assigned manager completes the rental;
confirm overwrites the assigned manager with the acting one; but extend
never succeeds for any manager because of the missing `additional_payment`
field. -/
theorem C10_no_acting_manager_check :
    rentalSample.manager_id = some 9 ∧
    mgrSample.manager_id = 7 ∧ mgrSampleB.manager_id = 8 ∧
    rental_reject userManagerSample rentalSample "причина" =
      ⟨{rentalSample with status := .rejected, rejection_reason := "причина"},
       ⟨.info, "Аренда отклонена"⟩⟩ ∧
    rental_reject userManagerSampleB rentalSample "причина" =
      rental_reject userManagerSample rentalSample "причина" ∧
    (rental_complete userManagerSampleB rentalConfirmedSample invWithBank
      clientSample ownerSample [] 20).rental.status = .completed ∧
    (rental_confirm userManagerSampleB
        {rentalSample with payment_status := .paid} invSample).rental.manager_id
      = some mgrSampleB.manager_id ∧
    rental_extend userManagerSampleB rentalConfirmedSample invWithBank 2 =
      ⟨rentalConfirmedSample, ⟨.error, "Ошибка при продлении"⟩⟩ :=
  ⟨rfl, rfl, rfl, rfl, rfl, rfl, rfl, rfl⟩

/-- C8: a client cancels a pending or confirmed rental exactly when it is
their own; a manager cancels any pending or confirmed rental; a foreign
client is rejected without changes; any other status is a warning no-op; on
success a rented inventory reverts to available and any other inventory
status is untouched. -/
theorem C8_cancel_permissions (u : User) (r : Rental) (i : Inventory)
    (cp : ClientP) :
    (u.role = .client → u.client_profile = some cp →
      r.client_id = cp.client_id →
      (r.status = .pending ∨ r.status = .confirmed) →
      rental_cancel u r i =
        ⟨{r with status := .cancelled},
         if i.status = .rented then {i with status := .available} else i,
         ⟨.success, "Аренда отменена"⟩⟩) ∧
    (u.role = .manager → (r.status = .pending ∨ r.status = .confirmed) →
      rental_cancel u r i =
        ⟨{r with status := .cancelled},
         if i.status = .rented then {i with status := .available} else i,
         ⟨.success, "Аренда отменена"⟩⟩) ∧
    (u.role = .client → u.client_profile = some cp →
      r.client_id ≠ cp.client_id →
      rental_cancel u r i =
        ⟨r, i, ⟨.error, "У вас нет прав на отмену этой аренды"⟩⟩) ∧
    ((u.role = .manager ∨ (u.role = .client ∧ u.client_profile = some cp ∧
        r.client_id = cp.client_id)) →
      ¬ (r.status = .pending ∨ r.status = .confirmed) →
      rental_cancel u r i = ⟨r, i, ⟨.warning, "Эту аренду нельзя отменить"⟩⟩) := by
  refine ⟨?_, ?_, ?_, ?_⟩
  · intro h1 h2 h3 h4
    rcases h4 with h4 | h4 <;>
      simp [rental_cancel, h1, h2, h3, rentalCancelStatusStep, h4]
  · intro h1 h4
    rcases h4 with h4 | h4 <;>
      simp [rental_cancel, h1, rentalCancelStatusStep, h4]
  · intro h1 h2 h3
    simp [rental_cancel, h1, h2, h3]
  · intro hperm hstat
    rcases hperm with h1 | ⟨h1, h2, h3⟩
    · simp [rental_cancel, h1, rentalCancelStatusStep, hstat]
    · simp [rental_cancel, h1, h2, h3, rentalCancelStatusStep, hstat]

/-- Witness for C8: the owning client cancels the pending sample rental and
the rented inventory reverts to available. -/
theorem C8_cancel_permissions_witness :
    rental_cancel clientUserSample rentalSample invWithBank =
      ⟨{rentalSample with status := .cancelled},
       {invWithBank with status := .available},
       ⟨.success, "Аренда отменена"⟩⟩ := by
  rw [(C8_cancel_permissions clientUserSample rentalSample invWithBank
    clientSample).1 rfl rfl rfl (Or.inl rfl)]
  rfl

/-- C7 counterexample: the payload `3` parses as JSON and the claim's drop
condition holds (no usable message text), so the claim demands a silent
drop; the code instead raises AttributeError calling `.get` on an int. -/
theorem C7_counterexample_nonstring_payload :
    ¬ claimC7Statement chatSessionSample "Имя" "Лыжи" (.parsed (.num 3)) := by
  intro h
  have h1 := h.1 (by decide)
  exact absurd h1 (by decide)

/-- C7 (amended): frames from administrators, unparsable or empty frames,
and well-formed payloads with empty trimmed text or no counterparty are
silently dropped; a payload parsing to a non-dict, or to a dict whose truthy
`message` value is not a string, raises instead of being dropped or
persisted; any other frame persists exactly one text ChatMessage and
broadcasts it to the rental's room plus one notification with url
`/chat/rental_id/`. -/
theorem C7_receive_amended (s : ChatSession)
    (sender_name inventory_name : String) (f : Frame)
    (hroom : s.room_group_name = some ("chat_" ++ toString s.rental_id)) :
    (s.role = .administrator →
      receive s sender_name inventory_name f = ([], none)) ∧
    (f = .empty ∨ f = .unparsable →
      receive s sender_name inventory_name f = ([], none)) ∧
    (∀ data, f = .parsed data → s.role ≠ .administrator →
      wellFormedPayload data = true →
      (frameMessageText f = "" ∨ s.other_user_id = none) →
      receive s sender_name inventory_name f = ([], none)) ∧
    (∀ data, f = .parsed data → s.role ≠ .administrator →
      wellFormedPayload data = false →
      ∃ e, receive s sender_name inventory_name f = ([], some e)) ∧
    (∀ data other, f = .parsed data → s.role ≠ .administrator →
      wellFormedPayload data = true → frameMessageText f ≠ "" →
      s.other_user_id = some other →
      receive s sender_name inventory_name f =
        ([.createChatMessage s.rental_id s.user_id other
            (frameMessageText f) "text",
          .groupSend ("chat_" ++ toString s.rental_id)
            (.chatMessage s.user_id (frameMessageText f)),
          .groupSend (userGroupName other)
            (.notifyMessage ("Новое сообщение от " ++ sender_name)
              (inventory_name ++ ": " ++ pyslice (frameMessageText f) 120)
              ("/chat/" ++ toString s.rental_id ++ "/"))], none)) := by
  refine ⟨?_, ?_, ?_, ?_, ?_⟩
  · intro h
    simp [receive, h]
  · rintro (rfl | rfl) <;>
      by_cases ha : s.role = .administrator <;>
      simp [receive, ha]
  · intro data hf hadm hwf hdrop
    subst hf
    cases data with
    | obj fields =>
      cases ht : jsonTruthy (dictGet fields "message") with
      | false =>
        have hz : pystrip "" = "" := rfl
        simp [receive, hadm, ht, hz]
      | true =>
        cases hd : dictGet fields "message" with
        | str t =>
          have ht2 : jsonTruthy (Json.str t) = true := hd ▸ ht
          rcases hdrop with htext | hother
          · have htt : pystrip t = "" := by
              simpa [frameMessageText, hd, ht2] using htext
            simp [receive, hadm, hd, ht2, htt]
          · by_cases htt : pystrip t = "" <;>
              simp [receive, hadm, hd, ht2, htt, hother]
        | null => simp [jsonTruthy, hd] at ht
        | bool b => exact absurd hwf (by simp [wellFormedPayload, hd, hd ▸ ht])
        | num n => exact absurd hwf (by simp [wellFormedPayload, hd, hd ▸ ht])
        | arr es => exact absurd hwf (by simp [wellFormedPayload, hd, hd ▸ ht])
        | obj fs => exact absurd hwf (by simp [wellFormedPayload, hd, hd ▸ ht])
    | null => exact absurd hwf (by simp [wellFormedPayload])
    | bool b => exact absurd hwf (by simp [wellFormedPayload])
    | num n => exact absurd hwf (by simp [wellFormedPayload])
    | str t => exact absurd hwf (by simp [wellFormedPayload])
    | arr es => exact absurd hwf (by simp [wellFormedPayload])
  · intro data hf hadm hwf
    subst hf
    cases data with
    | obj fields =>
      cases ht : jsonTruthy (dictGet fields "message") with
      | false => exact absurd hwf (by simp [wellFormedPayload, ht])
      | true =>
        cases hd : dictGet fields "message" with
        | str t => exact absurd hwf (by simp [wellFormedPayload, hd])
        | null => simp [jsonTruthy, hd] at ht
        | bool b =>
          exact ⟨.attributeError "strip", by simp [receive, hadm, hd, hd ▸ ht]⟩
        | num n =>
          exact ⟨.attributeError "strip", by simp [receive, hadm, hd, hd ▸ ht]⟩
        | arr es =>
          exact ⟨.attributeError "strip", by simp [receive, hadm, hd, hd ▸ ht]⟩
        | obj fs =>
          exact ⟨.attributeError "strip", by simp [receive, hadm, hd, hd ▸ ht]⟩
    | null => exact ⟨.attributeError "get", by simp [receive, hadm]⟩
    | bool b => exact ⟨.attributeError "get", by simp [receive, hadm]⟩
    | num n => exact ⟨.attributeError "get", by simp [receive, hadm]⟩
    | str t => exact ⟨.attributeError "get", by simp [receive, hadm]⟩
    | arr es => exact ⟨.attributeError "get", by simp [receive, hadm]⟩
  · intro data other hf hadm hwf htext hother
    subst hf
    cases data with
    | obj fields =>
      cases ht : jsonTruthy (dictGet fields "message") with
      | false =>
        exact absurd (by simp [frameMessageText, ht,
          show pystrip "" = "" from rfl]) htext
      | true =>
        cases hd : dictGet fields "message" with
        | str t =>
          have ht2 : jsonTruthy (Json.str t) = true := hd ▸ ht
          have hmt : frameMessageText (.parsed (.obj fields)) = pystrip t := by
            simp [frameMessageText, hd, ht2]
          have htt : ¬ pystrip t = "" := fun hc => htext (by rw [hmt, hc])
          rw [hmt]
          simp [receive, hadm, hd, ht2, htt, hother, hroom]
        | null => simp [jsonTruthy, hd] at ht
        | bool b => exact absurd hwf (by simp [wellFormedPayload, hd, hd ▸ ht])
        | num n => exact absurd hwf (by simp [wellFormedPayload, hd, hd ▸ ht])
        | arr es => exact absurd hwf (by simp [wellFormedPayload, hd, hd ▸ ht])
        | obj fs => exact absurd hwf (by simp [wellFormedPayload, hd, hd ▸ ht])
    | null => exact absurd hwf (by simp [wellFormedPayload])
    | bool b => exact absurd hwf (by simp [wellFormedPayload])
    | num n => exact absurd hwf (by simp [wellFormedPayload])
    | str t => exact absurd hwf (by simp [wellFormedPayload])
    | arr es => exact absurd hwf (by simp [wellFormedPayload])

/-- Witness for C7 at a concrete well-formed frame: the message is trimmed,
persisted once as type text, broadcast to chat_5 and notified to user_70
with url /chat/5/. -/
theorem C7_receive_amended_witness :
    receive chatSessionSample "Имя" "Лыжи"
        (.parsed (.obj [("message", .str " привет ")])) =
      ([.createChatMessage 5 20 70 "привет" "text",
        .groupSend "chat_5" (.chatMessage 20 "привет"),
        .groupSend "user_70"
          (.notifyMessage "Новое сообщение от Имя" "Лыжи: привет"
            "/chat/5/")], none) := by
  have h := (C7_receive_amended chatSessionSample "Имя" "Лыжи"
      (.parsed (.obj [("message", .str " привет ")])) rfl).2.2.2.2
      (Json.obj [("message", Json.str " привет ")]) 70 rfl (by decide)
      (by decide) (by decide) rfl
  exact h.trans (by rfl)

/-- C9: disconnect is idempotent and never errors; it is a no-op when the
session never joined (no room name assigned, as after a rejected connect),
and otherwise removes exactly this connection's membership in the rental's
room, leaving every other membership in place; a successful connect is what
assigns the room name and membership. -/
theorem C9_disconnect_idempotent (s : ChatSession) (layer : Layer) :
    chat_disconnect s (chat_disconnect s layer) = chat_disconnect s layer ∧
    (s.room_group_name = none → chat_disconnect s layer = layer) ∧
    (∀ room, s.room_group_name = some room →
      (room, s.channel_name) ∉ chat_disconnect s layer ∧
      ∀ p ∈ layer, p ≠ (room, s.channel_name) → p ∈ chat_disconnect s layer) ∧
    (∀ (u : User) (rid : Nat) (cr : Option ChatRental) (ch : String),
      chat_connect u false rid cr ch layer = (none, layer)) ∧
    (∀ (u : User) (rid : Nat) (cr : Option ChatRental) (ch : String)
        (sess : ChatSession) (layer2 : Layer),
      chat_connect u true rid cr ch layer = (some sess, layer2) →
      sess.room_group_name = some ("chat_" ++ toString rid) ∧
      sess.channel_name = ch ∧
      ("chat_" ++ toString rid, ch) ∈ layer2) := by
  refine ⟨?_, ?_, ?_, ?_, ?_⟩
  · cases h : s.room_group_name with
    | none => simp [chat_disconnect, h]
    | some room =>
      simp [chat_disconnect, h, group_discard, List.filter_filter]
  · intro h
    simp [chat_disconnect, h]
  · intro room h
    refine ⟨?_, ?_⟩
    · simp [chat_disconnect, h, group_discard, List.mem_filter]
    · intro p hp hne
      simp [chat_disconnect, h, group_discard, List.mem_filter, hp, hne]
  · intro u rid cr ch
    rfl
  · intro u rid cr ch sess layer2 h
    unfold chat_connect at h
    simp only [Bool.not_true, Bool.false_eq_true, if_false] at h
    cases hca : chat_check_access u cr with
    | mk allowed other =>
      rw [hca] at h
      cases allowed with
      | false => simp at h
      | true =>
        rw [Prod.mk.injEq] at h
        obtain ⟨h1, h2⟩ := h
        rw [Option.some.injEq] at h1
        subst h2
        rw [← h1]
        refine ⟨rfl, rfl, ?_⟩
        unfold group_add
        split_ifs with hmem
        · exact hmem
        · exact List.mem_cons_self _ _

/-- Witness for C9: after disconnect, the sample session's membership is
gone from the sample layer. -/
theorem C9_disconnect_idempotent_witness :
    ("chat_5", "ch1") ∉ chat_disconnect chatSessionSample layerSample :=
  (((C9_disconnect_idempotent chatSessionSample layerSample).2.2.1)
    "chat_5" rfl).1

end SportRent
